import Mathlib

/-!
Verification of the ProFuel fuel-tracking application (`yakit_takip.py`).

The development shallowly embeds the persistent state (SQLite tables
`araclar`, `yakit_kayitlari`, `depo`, `bakim_tamirat`) as Lean structures,
and the write operations and the consumption-statistics computation as pure
functions over that state.  REAL columns are modelled as `ℚ`, INTEGER
columns as `Int`/`Nat`, TEXT columns as `String`.
-/

/-- Result of one statistics figure as shown by
`yakit_istatistiklerini_hesapla`: `veriYok` is the "Veri yok" label,
`kmHatasi` is the "KM hatası" label, `deger q` is a computed L/100km rate. -/
inductive Stat where
  | veriYok : Stat
  | kmHatasi : Stat
  | deger : ℚ → Stat
deriving DecidableEq

/-- A row of `yakit_kayitlari` (fuel-log table): vehicle id, odometer km,
fuel volume, note, timestamp.  The AUTOINCREMENT surrogate `kayit_id` and
the defaulted `eklenme_tarihi` are never consulted by the modelled
operations and are omitted. -/
structure FuelEntry where
  aracId : Nat
  km : Int
  yakitMiktari : ℚ
  notlar : String
  tarih : String
deriving DecidableEq

/-- A row of `araclar` (vehicle table). `eklenme_tarihi` (defaulted) omitted. -/
structure Arac where
  aracId : Nat
  plaka : String
  model : String
  mevcutKm : Int
  modelYili : Option Int
  muayeneTarihi : String
  bakimTarihi : String
  aracSurucusu : String
deriving DecidableEq

/-- A row of `bakim_tamirat` (maintenance table). Surrogate key and
`eklenme_tarihi` omitted (the UI addresses records by the composite
(vehicle, date, fault description)). -/
structure Bakim where
  aracId : Nat
  tarih : String
  saat : String
  tespitEdilenAriza : String
  yapilanIslem : String
  parcaUcreti : ℚ
  iscilikUcreti : ℚ
  toplamTutar : ℚ
  notlar : String
deriving DecidableEq

/-- The database state: the three entity tables plus the singleton `depo`
row's `mevcut_yakit` level.  The `depo_dolumlari` table is not touched by
any modelled operation and is omitted. -/
structure DB where
  araclar : List Arac
  yakitKayitlari : List FuelEntry
  depoMevcutYakit : ℚ
  bakimTamirat : List Bakim
deriving DecidableEq

/-- Numeric value of a decimal digit character. -/
def basamakDegeri (c : Char) : Nat := c.toNat - 48

/-- SQLite `strftime('%m-%Y', tarih)` as used by the monthly statistics
query, returned as `some (month, year)`.  SQLite's date parser recognises
strings with an ISO `YYYY-MM-DD` prefix (optionally followed by a time
separated by a space or `T`) and yields NULL (`none`) on anything else —
it never raises an error. -/
def strftimeMY (s : String) : Option (Nat × Nat) :=
  match s.toList with
  | y1 :: y2 :: y3 :: y4 :: '-' :: m1 :: m2 :: '-' :: d1 :: d2 :: rest =>
    if y1.isDigit ∧ y2.isDigit ∧ y3.isDigit ∧ y4.isDigit ∧
       m1.isDigit ∧ m2.isDigit ∧ d1.isDigit ∧ d2.isDigit then
      let yil := basamakDegeri y1 * 1000 + basamakDegeri y2 * 100 +
                 basamakDegeri y3 * 10 + basamakDegeri y4
      let ay := basamakDegeri m1 * 10 + basamakDegeri m2
      let gun := basamakDegeri d1 * 10 + basamakDegeri d2
      if 1 ≤ ay ∧ ay ≤ 12 ∧ 1 ≤ gun ∧ gun ≤ 31 ∧
         (rest = [] ∨ rest.head? = some ' ' ∨ rest.head? = some 'T') then
        some (ay, yil)
      else none
    else none
  | _ => none

/-- SQLite `strftime('%Y', tarih)` as used by the yearly statistics query:
the year of a recognised ISO timestamp, NULL (`none`) otherwise. -/
def strftimeY (s : String) : Option Nat :=
  (strftimeMY s).map Prod.snd

/-- `datetime.strptime(tarih, "%d-%m-%Y %H:%M")` succeeding, i.e. the
timestamp-format validation in `yakit_ekle` (day-month-year space
hour:minute, numeric fields in range; `strptime` additionally tolerates
non-zero-padded fields, which nothing here depends on). -/
def tarihGecerli (s : String) : Bool :=
  match s.toList with
  | [d1, d2, '-', m1, m2, '-', y1, y2, y3, y4, ' ', h1, h2, ':', n1, n2] =>
    decide (d1.isDigit ∧ d2.isDigit ∧ m1.isDigit ∧ m2.isDigit ∧
       y1.isDigit ∧ y2.isDigit ∧ y3.isDigit ∧ y4.isDigit ∧
       h1.isDigit ∧ h2.isDigit ∧ n1.isDigit ∧ n2.isDigit ∧
       1 ≤ basamakDegeri d1 * 10 + basamakDegeri d2 ∧
       basamakDegeri d1 * 10 + basamakDegeri d2 ≤ 31 ∧
       1 ≤ basamakDegeri m1 * 10 + basamakDegeri m2 ∧
       basamakDegeri m1 * 10 + basamakDegeri m2 ≤ 12 ∧
       basamakDegeri h1 * 10 + basamakDegeri h2 ≤ 23 ∧
       basamakDegeri n1 * 10 + basamakDegeri n2 ≤ 59)
  | _ => false

/-- SQL `SUM(yakit_miktari)` over a list of fuel rows. -/
def toplamYakit (rows : List FuelEntry) : ℚ :=
  (rows.map FuelEntry.yakitMiktari).sum

/-- SQL `MIN(km)` over a nonempty list of fuel rows (0 on the empty list,
where the SQL result would be NULL; every use below guards nonemptiness). -/
def kmMin (rows : List FuelEntry) : Int :=
  match rows with
  | [] => 0
  | e :: es => List.foldl (fun m x => min m x.km) e.km es

/-- SQL `MAX(km)` over a nonempty list of fuel rows (0 on the empty list). -/
def kmMax (rows : List FuelEntry) : Int :=
  match rows with
  | [] => 0
  | e :: es => List.foldl (fun m x => max m x.km) e.km es

/-- Part 1 of `yakit_istatistiklerini_hesapla` ("GENEL ORTALAMA"): on the
vehicle's fuel rows, if the aggregate query returns NULL (no rows) the
label shows "Veri yok"; otherwise with `toplam_km = max − min`, a positive
span yields `(toplam_yakit / toplam_km) * 100` and a zero span yields
"KM hatası". -/
def genelOrtalama (rows : List FuelEntry) : Stat :=
  if rows.isEmpty then Stat.veriYok
  else if 0 < kmMax rows - kmMin rows then
    Stat.deger (toplamYakit rows / ((kmMax rows - kmMin rows : Int) : ℚ) * 100)
  else Stat.kmHatasi

/-- The per-partition rate `yakit / (son_km − bas_km) * 100` computed in
the Python generator expressions over the grouped query rows. -/
def donemOrani (g : List FuelEntry) : ℚ :=
  toplamYakit g / ((kmMax g - kmMin g : Int) : ℚ) * 100

/-- SQL `GROUP BY` on a key column: one group per distinct key value (all
NULL keys form a single group, as in SQLite), each group listing the rows
carrying that key, groups in order of first appearance. -/
def grupla {κ : Type} [DecidableEq κ] (key : FuelEntry → κ)
    (rows : List FuelEntry) : List (List FuelEntry) :=
  ((rows.map key).dedup).map (fun k => rows.filter (fun e => decide (key e = k)))

/-- SQL `HAVING son_km > bas_km AND COUNT(*) > 1`: the groups surviving
the HAVING clause of the per-period queries. -/
def gecerliGruplar (gruplar : List (List FuelEntry)) : List (List FuelEntry) :=
  gruplar.filter (fun g => decide (1 < g.length ∧ kmMin g < kmMax g))

/-- Parts 2/3 of `yakit_istatistiklerini_hesapla` applied to the grouped
rows: keep groups passing `HAVING son_km > bas_km AND COUNT(*) > 1`, then
show "Veri yok" if none remain, else the unweighted arithmetic mean of the
per-group rates. -/
def oranOrtalamasi (gruplar : List (List FuelEntry)) : Stat :=
  if (gecerliGruplar gruplar).isEmpty then Stat.veriYok
  else Stat.deger (((gecerliGruplar gruplar).map donemOrani).sum
    / ((gecerliGruplar gruplar).length : ℚ))

/-- Part 2 of `yakit_istatistiklerini_hesapla` ("AYLIK ORTALAMALAR"):
group the vehicle's rows by `strftime('%m-%Y', tarih)` and average the
qualifying per-month rates. -/
def aylikOrtalama (rows : List FuelEntry) : Stat :=
  oranOrtalamasi (grupla (fun e => strftimeMY e.tarih) rows)

/-- Part 3 of `yakit_istatistiklerini_hesapla` ("YILLIK ORTALAMALAR"):
group the vehicle's rows by `strftime('%Y', tarih)` and average the
qualifying per-year rates. -/
def yillikOrtalama (rows : List FuelEntry) : Stat :=
  oranOrtalamasi (grupla (fun e => strftimeY e.tarih) rows)

/-- The fuel rows of one vehicle: SQL `WHERE arac_id = ?`. -/
def aracKayitlari (db : DB) (aracId : Nat) : List FuelEntry :=
  db.yakitKayitlari.filter (fun e => decide (e.aracId = aracId))

/-- `yakit_istatistiklerini_hesapla` for a selected vehicle: the three
figures (overall, monthly, yearly) computed from that vehicle's fuel rows. -/
def yakitIstatistikleri (db : DB) (aracId : Nat) : Stat × Stat × Stat :=
  (genelOrtalama (aracKayitlari db aracId),
   aylikOrtalama (aracKayitlari db aracId),
   yillikOrtalama (aracKayitlari db aracId))

example : genelOrtalama
    [⟨1, 1000, 30, "", "2023-01-05 10:00"⟩, ⟨1, 1800, 32, "", "2023-02-05 10:00"⟩]
    = Stat.deger (31/4) := by
  norm_num [genelOrtalama, toplamYakit, kmMin, kmMax]

example : strftimeMY "2023-01-05 10:00" = some (1, 2023) := by decide

example : strftimeMY "15-01-2023 14:30" = none := by decide

example : tarihGecerli "15-01-2023 14:30" = true := by decide

/-! ## Specification-side statistics (for the refinement claim C2)

These definitions follow the spec's words: partition the entries by the
calendar period of the timestamp, keep exactly the partitions with at
least 2 entries and a positive odometer span, and take the unweighted
arithmetic mean of the per-partition rates. -/

/-- The entries of one period: rows whose key parses to `k`. -/
def donemKayitlari {κ : Type} [DecidableEq κ] (anahtar : FuelEntry → Option κ)
    (rows : List FuelEntry) (k : κ) : List FuelEntry :=
  rows.filter (fun e => decide (anahtar e = some k))

/-- The qualifying periods: distinct keys occurring in the rows whose
partition has at least 2 entries and `max(odometer) > min(odometer)`. -/
def specNitelikliDonemler {κ : Type} [DecidableEq κ] (anahtar : FuelEntry → Option κ)
    (rows : List FuelEntry) : List κ :=
  ((rows.filterMap anahtar).dedup).filter
    (fun k => decide (2 ≤ (donemKayitlari anahtar rows k).length ∧
      kmMin (donemKayitlari anahtar rows k) < kmMax (donemKayitlari anahtar rows k)))

/-- The spec's aggregate per-period figure: unweighted arithmetic mean of
the per-partition rates over the qualifying periods; "no data" when no
period qualifies. -/
def specDonemOrtalamasi {κ : Type} [DecidableEq κ] (anahtar : FuelEntry → Option κ)
    (rows : List FuelEntry) : Stat :=
  if (specNitelikliDonemler anahtar rows).isEmpty then Stat.veriYok
  else Stat.deger (((specNitelikliDonemler anahtar rows).map
      (fun k => donemOrani (donemKayitlari anahtar rows k))).sum
    / ((specNitelikliDonemler anahtar rows).length : ℚ))

/-! ## Write operations -/

/-- The AUTOINCREMENT id SQLite assigns to a newly inserted vehicle row:
one more than the largest id in the table. -/
def yeniAracId (db : DB) : Nat :=
  (db.araclar.map Arac.aracId).foldl max 0 + 1

/-- `arac_ekle`: validate (required fields present, km non-negative), then
INSERT into `araclar`; a duplicate plate violates the UNIQUE constraint
(`sqlite3.IntegrityError`), which is caught and reported, leaving the
state unchanged.  `plaka` is the entry text after `.strip().upper()`.
The second component is the error message shown, `none` on success. -/
def aracEkle (db : DB) (plaka model : String) (km : Int) (modelYili : Option Int)
    (muayeneTarihi bakimTarihi aracSurucusu : String) : DB × Option String :=
  if plaka = "" ∨ model = "" then
    (db, some "Lütfen zorunlu alanları doldurun (Plaka, Model, KM)!")
  else if km < 0 then
    (db, some "Geçersiz KM değeri: KM negatif olamaz")
  else if db.araclar.any (fun a => decide (a.plaka = plaka)) then
    (db, some "Bu plaka zaten kayıtlı!")
  else
    ({ db with araclar := db.araclar ++
        [⟨yeniAracId db, plaka, model, km, modelYili, muayeneTarihi, bakimTarihi,
          aracSurucusu⟩] }, none)

/-- `arac_sil`: look up the vehicle id by plate (first matching row); if
found, DELETE its rows from `yakit_kayitlari`, then from `bakim_tamirat`,
then the vehicle row itself from `araclar`. -/
def aracSil (db : DB) (plaka : String) : DB × Option String :=
  match db.araclar.find? (fun a => decide (a.plaka = plaka)) with
  | none => (db, some "Araç bulunamadı!")
  | some a =>
    ({ db with
        yakitKayitlari := db.yakitKayitlari.filter (fun e => decide (¬ e.aracId = a.aracId)),
        bakimTamirat := db.bakimTamirat.filter (fun b => decide (¬ b.aracId = a.aracId)),
        araclar := db.araclar.filter (fun x => decide (¬ x.aracId = a.aracId)) }, none)

/-- `yakit_ekle`: validate (`km ≥ 0`, `miktar > 0`, timestamp matching
`"%d-%m-%Y %H:%M"`), then (1) INSERT the fuel row, (2) UPDATE the
vehicle's `mevcut_km` to the new reading, (3) UPDATE the depot row by
`mevcut_yakit − miktar`.  The vehicle id comes from the vehicle combobox. -/
def yakitEkle (db : DB) (aracId : Nat) (km : Int) (miktar : ℚ)
    (tarih notlar : String) : DB × Option String :=
  if km < 0 ∨ miktar ≤ 0 then
    (db, some "Geçersiz değer: KM ve miktar pozitif olmalıdır")
  else if ¬ tarihGecerli tarih then
    (db, some "Geçersiz değer: Tarih formatı yanlış! Örnek: 2023-01-15 14:30")
  else
    ({ db with
        yakitKayitlari := db.yakitKayitlari ++ [⟨aracId, km, miktar, notlar, tarih⟩],
        araclar := db.araclar.map
          (fun a => if a.aracId = aracId then { a with mevcutKm := km } else a),
        depoMevcutYakit := db.depoMevcutYakit - miktar }, none)

/-- `yakit_kaydi_sil`: from the selected report row (timestamp, plate, km,
volume), look up the vehicle id by plate; if found, DELETE every fuel row
matching `(arac_id, tarih, km)` and UPDATE the depot row by
`mevcut_yakit + miktar` (the deleted volume is returned to the depot). -/
def yakitKaydiSil (db : DB) (plaka tarih : String) (km : Int) (miktar : ℚ) :
    DB × Option String :=
  match db.araclar.find? (fun a => decide (a.plaka = plaka)) with
  | none => (db, some "Araç bulunamadı!")
  | some a =>
    ({ db with
        yakitKayitlari := db.yakitKayitlari.filter
          (fun e => decide (¬ (e.aracId = a.aracId ∧ e.tarih = tarih ∧ e.km = km))),
        depoMevcutYakit := db.depoMevcutYakit + miktar }, none)

/-- The composite identity by which the maintenance UI addresses a record:
`arac_id = ? AND tarih = ? AND tespit_edilen_ariza = ?`. -/
def bakimEslesen (aracId : Nat) (tarih ariza : String) (b : Bakim) : Prop :=
  b.aracId = aracId ∧ b.tarih = tarih ∧ b.tespitEdilenAriza = ariza

instance (aracId : Nat) (tarih ariza : String) (b : Bakim) :
    Decidable (bakimEslesen aracId tarih ariza b) := by
  unfold bakimEslesen; infer_instance

/-- `bakim_kaydi_duzenle`: fetch the record matching the composite
`(arac_id, tarih, tespit_edilen_ariza)` of the selected row; if none is
found, report an error; otherwise fill the form with it, then immediately
DELETE every record matching that composite and COMMIT.  (Saving an edited
replacement is a separate, later `bakim_kaydi_ekle` invocation.) -/
def bakimKaydiDuzenle (db : DB) (aracId : Nat) (tarih ariza : String) :
    DB × Option String :=
  if db.bakimTamirat.any (fun b => decide (bakimEslesen aracId tarih ariza b)) then
    ({ db with
        bakimTamirat := db.bakimTamirat.filter
          (fun b => decide (¬ bakimEslesen aracId tarih ariza b)) }, none)
  else
    (db, some "Kayıt bulunamadı!")

/-! ## Helper lemmas -/

theorem oran_ortalamasi_veri_yok (gruplar : List (List FuelEntry))
    (h : ∀ g ∈ gruplar, g.length ≤ 1) : oranOrtalamasi gruplar = Stat.veriYok := by
  unfold oranOrtalamasi
  have hf : gecerliGruplar gruplar = [] := by
    unfold gecerliGruplar
    rw [List.filter_eq_nil_iff]
    intro g hg
    simp only [decide_eq_true_eq, not_and]
    intro hlen
    exact absurd hlen (by have := h g hg; omega)
  rw [hf]
  rfl

theorem grupla_grup_uzunlugu {κ : Type} [DecidableEq κ] (key : FuelEntry → κ)
    (rows : List FuelEntry) : ∀ g ∈ grupla key rows, g.length ≤ rows.length := by
  intro g hg
  unfold grupla at hg
  obtain ⟨k, _, rfl⟩ := List.mem_map.mp hg
  exact List.length_filter_le _ _

/-! ## Claims about the statistics computation -/

/-- C1: for rows with a positive odometer span the overall figure is
`(sum of volumes) / (max km − min km) * 100`; for at least two rows with a
zero span it is the "KM hatası" (odometer error) state, not zero. -/
theorem genel_ortalama_dogru (rows : List FuelEntry) :
    (rows ≠ [] → kmMin rows < kmMax rows →
      genelOrtalama rows =
        Stat.deger (toplamYakit rows / ((kmMax rows - kmMin rows : Int) : ℚ) * 100))
    ∧ (2 ≤ rows.length → kmMax rows = kmMin rows →
        genelOrtalama rows = Stat.kmHatasi) := by
  constructor
  · intro hne hlt
    unfold genelOrtalama
    rw [if_neg (by simpa [List.isEmpty_iff] using hne), if_pos (by omega)]
  · intro hlen heq
    have hne : ¬ rows.isEmpty = true := by
      cases rows with
      | nil => simp at hlen
      | cons e es => simp
    unfold genelOrtalama
    rw [if_neg hne, if_neg (by omega)]

/-- C1 witness: entries at odometers 1000 and 1800 with volumes 30 and 32
give 62/800*100 = 7.75 L/100km; two entries sharing an odometer give the
odometer-error state. -/
theorem genel_ortalama_dogru_ornek :
    genelOrtalama
        [⟨1, 1000, 30, "", "2023-01-05 10:00"⟩, ⟨1, 1800, 32, "", "2023-02-05 10:00"⟩]
      = Stat.deger (31/4)
    ∧ genelOrtalama
        [⟨1, 2000, 30, "", "2023-01-05 10:00"⟩, ⟨1, 2000, 32, "", "2023-02-05 10:00"⟩]
      = Stat.kmHatasi := by
  constructor
  · rw [(genel_ortalama_dogru
      [⟨1, 1000, 30, "", "2023-01-05 10:00"⟩, ⟨1, 1800, 32, "", "2023-02-05 10:00"⟩]).1
      (by decide) (by decide)]
    norm_num [toplamYakit, kmMin, kmMax]
  · exact (genel_ortalama_dogru
      [⟨1, 2000, 30, "", "2023-01-05 10:00"⟩, ⟨1, 2000, 32, "", "2023-02-05 10:00"⟩]).2
      (by decide) (by decide)

/-- C3 counterexample: a vehicle with exactly one fuel entry does NOT get
"no data" for all three figures — the overall figure is the odometer-error
state ("KM hatası"), because the aggregate row is non-NULL and the span is
zero.  Only the monthly and yearly figures show "Veri yok". -/
theorem tek_kayit_km_hatasi :
    yakitIstatistikleri
        ⟨[⟨1, "06ABC123", "Kamyon", 5000, none, "", "", ""⟩],
         [⟨1, 5000, 40, "", "2023-03-01 09:00"⟩], 0, []⟩ 1
      = (Stat.kmHatasi, Stat.veriYok, Stat.veriYok)
    ∧ Stat.kmHatasi ≠ Stat.veriYok := by decide

/-- C3 amended: with fewer than 2 entries the monthly and yearly figures
are "no data"; the overall figure is "no data" only for zero entries and
is the odometer-error state for exactly one entry. -/
theorem az_kayit_istatistikleri (rows : List FuelEntry) (h : rows.length < 2) :
    genelOrtalama rows = (if rows.isEmpty then Stat.veriYok else Stat.kmHatasi)
    ∧ aylikOrtalama rows = Stat.veriYok
    ∧ yillikOrtalama rows = Stat.veriYok := by
  have haylik : aylikOrtalama rows = Stat.veriYok := by
    apply oran_ortalamasi_veri_yok
    intro g hg
    exact le_trans (grupla_grup_uzunlugu _ rows g hg) (by omega)
  have hyillik : yillikOrtalama rows = Stat.veriYok := by
    apply oran_ortalamasi_veri_yok
    intro g hg
    exact le_trans (grupla_grup_uzunlugu _ rows g hg) (by omega)
  refine ⟨?_, haylik, hyillik⟩
  match rows, h with
  | [], _ => rfl
  | [e], _ =>
    have hspan : kmMax [e] - kmMin [e] = 0 := by simp [kmMin, kmMax]
    unfold genelOrtalama
    rw [if_neg (by simp), if_neg (by omega)]
    simp

/-- C3 amended witness: a concrete single-entry log. -/
theorem az_kayit_istatistikleri_ornek :
    genelOrtalama [⟨1, 5000, 40, "", "2023-03-01 09:00"⟩] = Stat.kmHatasi
    ∧ aylikOrtalama [⟨1, 5000, 40, "", "2023-03-01 09:00"⟩] = Stat.veriYok
    ∧ yillikOrtalama [⟨1, 5000, 40, "", "2023-03-01 09:00"⟩] = Stat.veriYok := by
  have h := az_kayit_istatistikleri [⟨1, 5000, 40, "", "2023-03-01 09:00"⟩] (by decide)
  simpa using h

/-! ## Claims about the write operations -/

theorem yakit_kaydi_sil_depo (db : DB) (plaka tarih : String) (km : Int) (miktar : ℚ)
    (hp : (db.araclar.find? (fun a => decide (a.plaka = plaka))).isSome) :
    (yakitKaydiSil db plaka tarih km miktar).1.depoMevcutYakit
      = db.depoMevcutYakit + miktar := by
  cases hfind : db.araclar.find? (fun a => decide (a.plaka = plaka)) with
  | none => rw [hfind] at hp; simp at hp
  | some a => simp [yakitKaydiSil, hfind]

theorem yakit_ekle_basarili_durum (db : DB) (aracId : Nat) (km : Int) (miktar : ℚ)
    (tarih notlar : String)
    (h : (yakitEkle db aracId km miktar tarih notlar).2 = none) :
    (yakitEkle db aracId km miktar tarih notlar).1 =
      { db with
          yakitKayitlari := db.yakitKayitlari ++ [⟨aracId, km, miktar, notlar, tarih⟩],
          araclar := db.araclar.map
            (fun a => if a.aracId = aracId then { a with mevcutKm := km } else a),
          depoMevcutYakit := db.depoMevcutYakit - miktar } := by
  unfold yakitEkle at h ⊢
  by_cases h1 : km < 0 ∨ miktar ≤ 0
  · rw [if_pos h1] at h; simp at h
  · rw [if_neg h1] at h ⊢
    by_cases h2 : ¬ tarihGecerli tarih = true
    · rw [if_pos h2] at h; simp at h
    · rw [if_neg h2]

theorem guncellenen_plaka (y : Arac) (aracId : Nat) (km : Int) :
    (if y.aracId = aracId then { y with mevcutKm := km } else y).plaka = y.plaka := by
  by_cases hid : y.aracId = aracId
  · rw [if_pos hid]
  · rw [if_neg hid]

theorem guncellenen_listede_plaka (l : List Arac) (aracId : Nat) (km : Int)
    (plaka : String) :
    ((l.map (fun a => if a.aracId = aracId then { a with mevcutKm := km } else a)).find?
        (fun a => decide (a.plaka = plaka))).isSome
      ↔ (l.find? (fun a => decide (a.plaka = plaka))).isSome := by
  simp only [List.find?_isSome, List.mem_map]
  constructor
  · rintro ⟨x, ⟨y, hy, rfl⟩, hx⟩
    rw [decide_eq_true_eq, guncellenen_plaka y aracId km] at hx
    exact ⟨y, hy, by rw [decide_eq_true_eq]; exact hx⟩
  · rintro ⟨y, hy, hx⟩
    rw [decide_eq_true_eq] at hx
    refine ⟨if y.aracId = aracId then { y with mevcutKm := km } else y, ⟨y, hy, rfl⟩, ?_⟩
    rw [decide_eq_true_eq, guncellenen_plaka y aracId km]
    exact hx

/-- C5: deleting a fuel entry of volume V adds exactly V back to the depot
level; in particular the round-trip (add a fuel entry of volume V, then
delete it) returns the depot level to its starting value. -/
theorem yakit_sil_depo_geri (db : DB) (plaka tarih notlar : String) (aracId : Nat)
    (km : Int) (miktar : ℚ)
    (hp : (db.araclar.find? (fun a => decide (a.plaka = plaka))).isSome) :
    ((yakitKaydiSil db plaka tarih km miktar).1.depoMevcutYakit
        = db.depoMevcutYakit + miktar)
    ∧ ((yakitEkle db aracId km miktar tarih notlar).2 = none →
        (yakitKaydiSil (yakitEkle db aracId km miktar tarih notlar).1
            plaka tarih km miktar).1.depoMevcutYakit = db.depoMevcutYakit) := by
  refine ⟨yakit_kaydi_sil_depo db plaka tarih km miktar hp, ?_⟩
  intro hok
  rw [yakit_ekle_basarili_durum db aracId km miktar tarih notlar hok]
  rw [yakit_kaydi_sil_depo _ plaka tarih km miktar
    ((guncellenen_listede_plaka db.araclar aracId km plaka).mpr hp)]
  exact sub_add_cancel _ _

/-- C5 witness: depot at 100, add a 25 L fuel entry (depot goes to 75),
delete it: the depot returns to 100; deleting alone adds the volume back. -/
theorem yakit_sil_depo_geri_ornek :
    ((yakitKaydiSil
        ⟨[⟨1, "34AB34", "Ford", 400, none, "", "", ""⟩],
         [⟨1, 500, 25, "", "15-01-2023 14:30"⟩], 75, []⟩
        "34AB34" "15-01-2023 14:30" 500 25).1.depoMevcutYakit = 100)
    ∧ ((yakitKaydiSil
          (yakitEkle ⟨[⟨1, "34AB34", "Ford", 400, none, "", "", ""⟩], [], 100, []⟩
            1 500 25 "15-01-2023 14:30" "").1
          "34AB34" "15-01-2023 14:30" 500 25).1.depoMevcutYakit = 100) := by
  constructor
  · rw [(yakit_sil_depo_geri
      ⟨[⟨1, "34AB34", "Ford", 400, none, "", "", ""⟩],
       [⟨1, 500, 25, "", "15-01-2023 14:30"⟩], 75, []⟩
      "34AB34" "15-01-2023 14:30" "" 1 500 25 (by decide)).1]
    norm_num
  · exact (yakit_sil_depo_geri
      ⟨[⟨1, "34AB34", "Ford", 400, none, "", "", ""⟩], [], 100, []⟩
      "34AB34" "15-01-2023 14:30" "" 1 500 25 (by decide)).2 (by decide)

/-- C6: a valid fuel-entry write (non-negative km, positive volume,
well-formed timestamp, existing vehicle) succeeds, appends the fuel row,
unconditionally overwrites the vehicle's `mevcut_km` with the new reading
(even one lower than before), and decreases the depot level by exactly the
volume with no floor. -/
theorem yakit_ekle_etkileri (db : DB) (aracId : Nat) (km : Int) (miktar : ℚ)
    (tarih notlar : String) (hkm : 0 ≤ km) (hm : 0 < miktar)
    (ht : tarihGecerli tarih = true) (ha : ∃ a ∈ db.araclar, a.aracId = aracId) :
    ((yakitEkle db aracId km miktar tarih notlar).2 = none)
    ∧ ((yakitEkle db aracId km miktar tarih notlar).1.yakitKayitlari
        = db.yakitKayitlari ++ [⟨aracId, km, miktar, notlar, tarih⟩])
    ∧ (∀ a ∈ (yakitEkle db aracId km miktar tarih notlar).1.araclar,
        a.aracId = aracId → a.mevcutKm = km)
    ∧ ((yakitEkle db aracId km miktar tarih notlar).1.depoMevcutYakit
        = db.depoMevcutYakit - miktar) := by
  have hg1 : ¬ (km < 0 ∨ miktar ≤ 0) := by
    push_neg
    exact ⟨hkm, hm⟩
  have hok : (yakitEkle db aracId km miktar tarih notlar).2 = none := by
    unfold yakitEkle
    rw [if_neg hg1, if_neg (by simp [ht])]
  have hdurum := yakit_ekle_basarili_durum db aracId km miktar tarih notlar hok
  refine ⟨hok, ?_, ?_, ?_⟩
  · rw [hdurum]
  · rw [hdurum]
    intro a ha' hid
    obtain ⟨x, _, rfl⟩ := List.mem_map.mp ha'
    by_cases hx : x.aracId = aracId
    · simp [hx]
    · simp only [if_neg hx] at hid ⊢
      exact absurd hid hx
  · rw [hdurum]

/-- C6 witness: vehicle 1 stands at km 400; a valid entry at the LOWER
reading 300 of 50 L on an empty depot is accepted, rewinds the recorded
odometer to 300, and drives the depot level to −50. -/
theorem yakit_ekle_etkileri_ornek :
    ((yakitEkle ⟨[⟨1, "34AB34", "Ford", 400, none, "", "", ""⟩], [], 0, []⟩
        1 300 50 "15-01-2023 14:30" "").2 = none)
    ∧ ((yakitEkle ⟨[⟨1, "34AB34", "Ford", 400, none, "", "", ""⟩], [], 0, []⟩
        1 300 50 "15-01-2023 14:30" "").1.yakitKayitlari
        = [⟨1, 300, 50, "", "15-01-2023 14:30"⟩])
    ∧ ((yakitEkle ⟨[⟨1, "34AB34", "Ford", 400, none, "", "", ""⟩], [], 0, []⟩
        1 300 50 "15-01-2023 14:30" "").1.araclar
        = [⟨1, "34AB34", "Ford", 300, none, "", "", ""⟩])
    ∧ ((yakitEkle ⟨[⟨1, "34AB34", "Ford", 400, none, "", "", ""⟩], [], 0, []⟩
        1 300 50 "15-01-2023 14:30" "").1.depoMevcutYakit = -50) := by
  have h := yakit_ekle_etkileri ⟨[⟨1, "34AB34", "Ford", 400, none, "", "", ""⟩], [], 0, []⟩
    1 300 50 "15-01-2023 14:30" "" (by decide) (by decide) (by decide) (by decide)
  refine ⟨h.1, ?_, ?_, ?_⟩
  · rw [h.2.1]
    rfl
  · rw [yakit_ekle_basarili_durum _ _ _ _ _ _ h.1]
    simp
  · rw [h.2.2.2]
    norm_num

/-- C7: deleting a fuel entry touches only the fuel-log table and the
depot level; the `araclar` table — in particular the vehicle's recorded
`mevcut_km` — and the maintenance table are left exactly as they were
(the prior odometer value is never restored). -/
theorem yakit_sil_cerceve (db : DB) (plaka tarih : String) (km : Int) (miktar : ℚ) :
    ((yakitKaydiSil db plaka tarih km miktar).1.araclar = db.araclar)
    ∧ ((yakitKaydiSil db plaka tarih km miktar).1.bakimTamirat = db.bakimTamirat) := by
  unfold yakitKaydiSil
  cases db.araclar.find? (fun a => decide (a.plaka = plaka)) with
  | none => exact ⟨rfl, rfl⟩
  | some a => exact ⟨rfl, rfl⟩

/-- C8: adding a vehicle whose plate is already present is rejected with
the uniqueness-violation message and leaves storage unchanged (in
particular the vehicle-table row count is unchanged). -/
theorem arac_ekle_plaka_cakismasi (db : DB) (plaka model : String) (km : Int)
    (modelYili : Option Int) (muayeneTarihi bakimTarihi aracSurucusu : String)
    (hp : plaka ≠ "") (hm : model ≠ "") (hk : 0 ≤ km)
    (hd : ∃ a ∈ db.araclar, a.plaka = plaka) :
    (aracEkle db plaka model km modelYili muayeneTarihi bakimTarihi aracSurucusu
        = (db, some "Bu plaka zaten kayıtlı!"))
    ∧ ((aracEkle db plaka model km modelYili muayeneTarihi bakimTarihi
        aracSurucusu).1.araclar.length = db.araclar.length) := by
  have hany : db.araclar.any (fun a => decide (a.plaka = plaka)) = true := by
    rw [List.any_eq_true]
    obtain ⟨a, haa, hap⟩ := hd
    exact ⟨a, haa, by rw [decide_eq_true_eq]; exact hap⟩
  have hsonuc : aracEkle db plaka model km modelYili muayeneTarihi bakimTarihi
      aracSurucusu = (db, some "Bu plaka zaten kayıtlı!") := by
    unfold aracEkle
    rw [if_neg (by push_neg; exact ⟨hp, hm⟩), if_neg (by omega), if_pos hany]
  exact ⟨hsonuc, by rw [hsonuc]⟩

/-- C8 witness: with plate "34AB34" already registered, a second add with
the same plate returns the duplicate-plate error and the unchanged state. -/
theorem arac_ekle_plaka_cakismasi_ornek :
    (aracEkle ⟨[⟨1, "34AB34", "Ford", 400, none, "", "", ""⟩], [], 0, []⟩
        "34AB34" "Fiat" 0 none "" "" ""
      = (⟨[⟨1, "34AB34", "Ford", 400, none, "", "", ""⟩], [], 0, []⟩,
         some "Bu plaka zaten kayıtlı!"))
    ∧ ((aracEkle ⟨[⟨1, "34AB34", "Ford", 400, none, "", "", ""⟩], [], 0, []⟩
        "34AB34" "Fiat" 0 none "" "" "").1.araclar.length = 1) := by
  have h := arac_ekle_plaka_cakismasi
    ⟨[⟨1, "34AB34", "Ford", 400, none, "", "", ""⟩], [], 0, []⟩
    "34AB34" "Fiat" 0 none "" "" "" (by decide) (by decide) (by decide) (by decide)
  exact ⟨h.1, by rw [h.2]; rfl⟩

/-- C9: deleting a vehicle (looked up by plate) removes its row and
cascades to all of its fuel-log and maintenance rows, so that afterwards
no row in any of the three tables references the deleted vehicle's id. -/
theorem arac_sil_kaskad (db : DB) (plaka : String) (a : Arac)
    (hf : db.araclar.find? (fun x => decide (x.plaka = plaka)) = some a) :
    ((aracSil db plaka).1.yakitKayitlari
        = db.yakitKayitlari.filter (fun e => decide (¬ e.aracId = a.aracId)))
    ∧ ((aracSil db plaka).1.bakimTamirat
        = db.bakimTamirat.filter (fun b => decide (¬ b.aracId = a.aracId)))
    ∧ ((aracSil db plaka).1.araclar
        = db.araclar.filter (fun x => decide (¬ x.aracId = a.aracId)))
    ∧ (∀ e ∈ (aracSil db plaka).1.yakitKayitlari, e.aracId ≠ a.aracId)
    ∧ (∀ b ∈ (aracSil db plaka).1.bakimTamirat, b.aracId ≠ a.aracId)
    ∧ (∀ x ∈ (aracSil db plaka).1.araclar, x.aracId ≠ a.aracId) := by
  have hs : aracSil db plaka =
      ({ db with
          yakitKayitlari := db.yakitKayitlari.filter
            (fun e => decide (¬ e.aracId = a.aracId)),
          bakimTamirat := db.bakimTamirat.filter
            (fun b => decide (¬ b.aracId = a.aracId)),
          araclar := db.araclar.filter
            (fun x => decide (¬ x.aracId = a.aracId)) }, none) := by
    unfold aracSil
    rw [hf]
  have h1 : (aracSil db plaka).1.yakitKayitlari
      = db.yakitKayitlari.filter (fun e => decide (¬ e.aracId = a.aracId)) := by
    rw [hs]
  have h2 : (aracSil db plaka).1.bakimTamirat
      = db.bakimTamirat.filter (fun b => decide (¬ b.aracId = a.aracId)) := by
    rw [hs]
  have h3 : (aracSil db plaka).1.araclar
      = db.araclar.filter (fun x => decide (¬ x.aracId = a.aracId)) := by
    rw [hs]
  refine ⟨h1, h2, h3, ?_, ?_, ?_⟩
  · intro e he
    rw [h1] at he
    have hd := (List.mem_filter.mp he).2
    simp only [decide_eq_true_eq] at hd
    exact hd
  · intro b hb
    rw [h2] at hb
    have hd := (List.mem_filter.mp hb).2
    simp only [decide_eq_true_eq] at hd
    exact hd
  · intro x hx
    rw [h3] at hx
    have hd := (List.mem_filter.mp hx).2
    simp only [decide_eq_true_eq] at hd
    exact hd

/-- C9 witness: deleting vehicle 1 (plate "34AB34") removes its fuel and
maintenance rows and leaves only vehicle 2's data. -/
theorem arac_sil_kaskad_ornek :
    ((aracSil
        ⟨[⟨1, "34AB34", "Ford", 400, none, "", "", ""⟩,
          ⟨2, "06CD06", "Fiat", 900, none, "", "", ""⟩],
         [⟨1, 500, 25, "", "15-01-2023 14:30"⟩, ⟨2, 900, 30, "", "16-01-2023 11:00"⟩],
         0,
         [⟨1, "10-01-2023", "09:00", "fren", "balata", 10, 5, 15, ""⟩]⟩
        "34AB34").1.yakitKayitlari = [⟨2, 900, 30, "", "16-01-2023 11:00"⟩])
    ∧ ((aracSil
        ⟨[⟨1, "34AB34", "Ford", 400, none, "", "", ""⟩,
          ⟨2, "06CD06", "Fiat", 900, none, "", "", ""⟩],
         [⟨1, 500, 25, "", "15-01-2023 14:30"⟩, ⟨2, 900, 30, "", "16-01-2023 11:00"⟩],
         0,
         [⟨1, "10-01-2023", "09:00", "fren", "balata", 10, 5, 15, ""⟩]⟩
        "34AB34").1.bakimTamirat = [])
    ∧ ((aracSil
        ⟨[⟨1, "34AB34", "Ford", 400, none, "", "", ""⟩,
          ⟨2, "06CD06", "Fiat", 900, none, "", "", ""⟩],
         [⟨1, 500, 25, "", "15-01-2023 14:30"⟩, ⟨2, 900, 30, "", "16-01-2023 11:00"⟩],
         0,
         [⟨1, "10-01-2023", "09:00", "fren", "balata", 10, 5, 15, ""⟩]⟩
        "34AB34").1.araclar = [⟨2, "06CD06", "Fiat", 900, none, "", "", ""⟩]) := by
  have h := arac_sil_kaskad
    ⟨[⟨1, "34AB34", "Ford", 400, none, "", "", ""⟩,
      ⟨2, "06CD06", "Fiat", 900, none, "", "", ""⟩],
     [⟨1, 500, 25, "", "15-01-2023 14:30"⟩, ⟨2, 900, 30, "", "16-01-2023 11:00"⟩],
     0,
     [⟨1, "10-01-2023", "09:00", "fren", "balata", 10, 5, 15, ""⟩]⟩
    "34AB34" ⟨1, "34AB34", "Ford", 400, none, "", "", ""⟩ (by decide)
  refine ⟨?_, ?_, ?_⟩
  · rw [h.1]; decide
  · rw [h.2.1]; decide
  · rw [h.2.2.1]; decide

/-- C10 (implicit behaviour): invoking the maintenance-record edit
operation on an existing record immediately deletes from storage every
record matching the selected (vehicle, date, fault-description) composite
and commits that deletion before any replacement is saved; nothing with
that composite survives the invocation. -/
theorem bakim_duzenle_hemen_siler (db : DB) (aracId : Nat) (tarih ariza : String)
    (h : ∃ b ∈ db.bakimTamirat, bakimEslesen aracId tarih ariza b) :
    ((bakimKaydiDuzenle db aracId tarih ariza).2 = none)
    ∧ ((bakimKaydiDuzenle db aracId tarih ariza).1.bakimTamirat
        = db.bakimTamirat.filter (fun b => decide (¬ bakimEslesen aracId tarih ariza b)))
    ∧ (∀ b ∈ (bakimKaydiDuzenle db aracId tarih ariza).1.bakimTamirat,
        ¬ bakimEslesen aracId tarih ariza b) := by
  have hany : db.bakimTamirat.any
      (fun b => decide (bakimEslesen aracId tarih ariza b)) = true := by
    rw [List.any_eq_true]
    obtain ⟨b, hbb, hbe⟩ := h
    exact ⟨b, hbb, by rw [decide_eq_true_eq]; exact hbe⟩
  have hs : bakimKaydiDuzenle db aracId tarih ariza =
      ({ db with
          bakimTamirat := db.bakimTamirat.filter
            (fun b => decide (¬ bakimEslesen aracId tarih ariza b)) }, none) := by
    unfold bakimKaydiDuzenle
    rw [if_pos hany]
  have h2 : (bakimKaydiDuzenle db aracId tarih ariza).1.bakimTamirat
      = db.bakimTamirat.filter (fun b => decide (¬ bakimEslesen aracId tarih ariza b)) := by
    rw [hs]
  refine ⟨by rw [hs], h2, ?_⟩
  intro b hb
  rw [h2] at hb
  have hd := (List.mem_filter.mp hb).2
  simp only [decide_eq_true_eq] at hd
  exact hd

/-- C10 witness: two records share the composite (vehicle 1, "10-01-2023",
"fren"); the edit invocation deletes BOTH at once, keeping only the
unrelated record. -/
theorem bakim_duzenle_hemen_siler_ornek :
    ((bakimKaydiDuzenle
        ⟨[⟨1, "34AB34", "Ford", 400, none, "", "", ""⟩], [], 0,
         [⟨1, "10-01-2023", "09:00", "fren", "balata", 10, 5, 15, ""⟩,
          ⟨1, "10-01-2023", "14:00", "fren", "disk", 20, 5, 25, ""⟩,
          ⟨1, "11-01-2023", "09:00", "lastik", "rot", 5, 5, 10, ""⟩]⟩
        1 "10-01-2023" "fren").1.bakimTamirat
      = [⟨1, "11-01-2023", "09:00", "lastik", "rot", 5, 5, 10, ""⟩])
    ∧ ((bakimKaydiDuzenle
        ⟨[⟨1, "34AB34", "Ford", 400, none, "", "", ""⟩], [], 0,
         [⟨1, "10-01-2023", "09:00", "fren", "balata", 10, 5, 15, ""⟩,
          ⟨1, "10-01-2023", "14:00", "fren", "disk", 20, 5, 25, ""⟩,
          ⟨1, "11-01-2023", "09:00", "lastik", "rot", 5, 5, 10, ""⟩]⟩
        1 "10-01-2023" "fren").2 = none) := by
  have h := bakim_duzenle_hemen_siler
    ⟨[⟨1, "34AB34", "Ford", 400, none, "", "", ""⟩], [], 0,
     [⟨1, "10-01-2023", "09:00", "fren", "balata", 10, 5, 15, ""⟩,
      ⟨1, "10-01-2023", "14:00", "fren", "disk", 20, 5, 25, ""⟩,
      ⟨1, "11-01-2023", "09:00", "lastik", "rot", 5, 5, 10, ""⟩]⟩
    1 "10-01-2023" "fren" (by decide)
  refine ⟨?_, h.1⟩
  rw [h.2.1]
  decide

/-! ## C2: the per-period aggregates refine the spec's description -/

theorem isEmpty_harita {α β : Type} (f : α → β) (l : List α) :
    (l.map f).isEmpty = l.isEmpty := by
  cases l with
  | nil => rfl
  | cons x xs => rfl

theorem map_esit_filterMap {α κ : Type} (f : α → Option κ) (l : List α)
    (h : ∀ x ∈ l, (f x).isSome) : l.map f = (l.filterMap f).map some := by
  induction l with
  | nil => rfl
  | cons x xs ih =>
    obtain ⟨v, hv⟩ := Option.isSome_iff_exists.mp (h x (List.mem_cons_self x xs))
    simp only [List.map_cons, List.filterMap_cons, hv]
    rw [ih (fun y hy => h y (List.mem_cons_of_mem x hy))]

theorem donem_ortalamasi_spec_uyum {κ : Type} [DecidableEq κ]
    (anahtar : FuelEntry → Option κ) (rows : List FuelEntry)
    (h : ∀ e ∈ rows, (anahtar e).isSome) :
    oranOrtalamasi (grupla anahtar rows) = specDonemOrtalamasi anahtar rows := by
  have hg : grupla anahtar rows
      = (rows.filterMap anahtar).dedup.map (donemKayitlari anahtar rows) := by
    unfold grupla
    rw [map_esit_filterMap anahtar rows h,
      List.dedup_map_of_injective (Option.some_injective κ) (rows.filterMap anahtar),
      List.map_map]
    rfl
  have hfil : gecerliGruplar
      ((rows.filterMap anahtar).dedup.map (donemKayitlari anahtar rows))
      = (specNitelikliDonemler anahtar rows).map (donemKayitlari anahtar rows) := by
    unfold gecerliGruplar specNitelikliDonemler
    rw [List.filter_map (donemKayitlari anahtar rows) (rows.filterMap anahtar).dedup]
    rfl
  rw [hg]
  unfold oranOrtalamasi specDonemOrtalamasi
  rw [hfil, isEmpty_harita, List.map_map, List.length_map]
  rfl

/-- C2: on a log whose timestamps all parse, both the monthly and the
yearly figure equal the spec's description: the unweighted arithmetic mean
of the per-partition rates over exactly those calendar-month (resp. -year)
partitions holding at least 2 entries with a positive odometer span, all
other partitions being excluded entirely. -/
theorem aylik_yillik_spec_uyum (rows : List FuelEntry)
    (h : ∀ e ∈ rows, (strftimeMY e.tarih).isSome) :
    (aylikOrtalama rows = specDonemOrtalamasi (fun e => strftimeMY e.tarih) rows)
    ∧ (yillikOrtalama rows = specDonemOrtalamasi (fun e => strftimeY e.tarih) rows) := by
  constructor
  · exact donem_ortalamasi_spec_uyum (fun e => strftimeMY e.tarih) rows h
  · refine donem_ortalamasi_spec_uyum (fun e => strftimeY e.tarih) rows ?_
    intro e he
    have hm := h e he
    obtain ⟨v, hv⟩ := Option.isSome_iff_exists.mp hm
    simp [strftimeY, hv]

/-- C2 witness: January 2023 holds three entries (km 0→200, 10 L in all,
rate 5 L/100km) and February 2023 two entries (km 300→400, 7 L, rate
7 L/100km); the monthly aggregate is the unweighted mean 6 L/100km on both
the code side and the spec side, despite the unequal entry counts. -/
theorem aylik_yillik_spec_uyum_ornek :
    (aylikOrtalama
        [⟨1, 0, 4, "", "2023-01-05 10:00"⟩, ⟨1, 100, 3, "", "2023-01-15 10:00"⟩,
         ⟨1, 200, 3, "", "2023-01-25 10:00"⟩, ⟨1, 300, 3, "", "2023-02-05 10:00"⟩,
         ⟨1, 400, 4, "", "2023-02-20 10:00"⟩]
      = Stat.deger 6)
    ∧ (specDonemOrtalamasi (fun e => strftimeMY e.tarih)
        [⟨1, 0, 4, "", "2023-01-05 10:00"⟩, ⟨1, 100, 3, "", "2023-01-15 10:00"⟩,
         ⟨1, 200, 3, "", "2023-01-25 10:00"⟩, ⟨1, 300, 3, "", "2023-02-05 10:00"⟩,
         ⟨1, 400, 4, "", "2023-02-20 10:00"⟩]
      = Stat.deger 6) := by
  have hkod : aylikOrtalama
      [⟨1, 0, 4, "", "2023-01-05 10:00"⟩, ⟨1, 100, 3, "", "2023-01-15 10:00"⟩,
       ⟨1, 200, 3, "", "2023-01-25 10:00"⟩, ⟨1, 300, 3, "", "2023-02-05 10:00"⟩,
       ⟨1, 400, 4, "", "2023-02-20 10:00"⟩] = Stat.deger 6 := by
    have hg : gecerliGruplar (grupla (fun e => strftimeMY e.tarih)
        [⟨1, 0, 4, "", "2023-01-05 10:00"⟩, ⟨1, 100, 3, "", "2023-01-15 10:00"⟩,
         ⟨1, 200, 3, "", "2023-01-25 10:00"⟩, ⟨1, 300, 3, "", "2023-02-05 10:00"⟩,
         ⟨1, 400, 4, "", "2023-02-20 10:00"⟩])
        = [[⟨1, 0, 4, "", "2023-01-05 10:00"⟩, ⟨1, 100, 3, "", "2023-01-15 10:00"⟩,
            ⟨1, 200, 3, "", "2023-01-25 10:00"⟩],
           [⟨1, 300, 3, "", "2023-02-05 10:00"⟩, ⟨1, 400, 4, "", "2023-02-20 10:00"⟩]] := by
      decide
    unfold aylikOrtalama oranOrtalamasi
    rw [hg]
    norm_num [donemOrani, toplamYakit, kmMin, kmMax]
  refine ⟨hkod, ?_⟩
  rw [← (aylik_yillik_spec_uyum
    [⟨1, 0, 4, "", "2023-01-05 10:00"⟩, ⟨1, 100, 3, "", "2023-01-15 10:00"⟩,
     ⟨1, 200, 3, "", "2023-01-25 10:00"⟩, ⟨1, 300, 3, "", "2023-02-05 10:00"⟩,
     ⟨1, 400, 4, "", "2023-02-20 10:00"⟩] (by decide)).1]
  exact hkod

/-! ## C4: behaviour on malformed timestamps -/

/-- C4 counterexample: both rows of this log carry the application's own
`"%d-%m-%Y %H:%M"` timestamps, which SQLite's `strftime` does NOT parse
(it yields NULL, never an error), yet the statistics invocation completes
and shows computed values for all three figures — the overall rate never
consults timestamps, and the two NULL-keyed rows form a single qualifying
partition for the monthly and yearly queries.  Nothing is aborted and
results are shown, contradicting the claimed failure semantics. -/
theorem bozuk_tarih_hesap_devam :
    (strftimeMY "15-01-2023 14:30" = none ∧ strftimeMY "20-02-2023 10:00" = none)
    ∧ (yakitIstatistikleri
        ⟨[⟨1, "34AB34", "Ford", 1400, none, "", "", ""⟩],
         [⟨1, 1000, 30, "", "15-01-2023 14:30"⟩, ⟨1, 1400, 32, "", "20-02-2023 10:00"⟩],
         0, []⟩ 1
      = (Stat.deger (31/2), Stat.deger (31/2), Stat.deger (31/2))) := by
  refine ⟨by decide, ?_⟩
  have ha : aracKayitlari
      ⟨[⟨1, "34AB34", "Ford", 1400, none, "", "", ""⟩],
       [⟨1, 1000, 30, "", "15-01-2023 14:30"⟩, ⟨1, 1400, 32, "", "20-02-2023 10:00"⟩],
       0, []⟩ 1
      = [⟨1, 1000, 30, "", "15-01-2023 14:30"⟩, ⟨1, 1400, 32, "", "20-02-2023 10:00"⟩] := by
    decide
  have hgen : genelOrtalama
      [⟨1, 1000, 30, "", "15-01-2023 14:30"⟩, ⟨1, 1400, 32, "", "20-02-2023 10:00"⟩]
      = Stat.deger (31/2) := by
    norm_num [genelOrtalama, toplamYakit, kmMin, kmMax]
  have hay : aylikOrtalama
      [⟨1, 1000, 30, "", "15-01-2023 14:30"⟩, ⟨1, 1400, 32, "", "20-02-2023 10:00"⟩]
      = Stat.deger (31/2) := by
    have hg : gecerliGruplar (grupla (fun e => strftimeMY e.tarih)
        [⟨1, 1000, 30, "", "15-01-2023 14:30"⟩, ⟨1, 1400, 32, "", "20-02-2023 10:00"⟩])
        = [[⟨1, 1000, 30, "", "15-01-2023 14:30"⟩,
            ⟨1, 1400, 32, "", "20-02-2023 10:00"⟩]] := by
      decide
    unfold aylikOrtalama oranOrtalamasi
    rw [hg]
    norm_num [donemOrani, toplamYakit, kmMin, kmMax]
  have hyil : yillikOrtalama
      [⟨1, 1000, 30, "", "15-01-2023 14:30"⟩, ⟨1, 1400, 32, "", "20-02-2023 10:00"⟩]
      = Stat.deger (31/2) := by
    have hg : gecerliGruplar (grupla (fun e => strftimeY e.tarih)
        [⟨1, 1000, 30, "", "15-01-2023 14:30"⟩, ⟨1, 1400, 32, "", "20-02-2023 10:00"⟩])
        = [[⟨1, 1000, 30, "", "15-01-2023 14:30"⟩,
            ⟨1, 1400, 32, "", "20-02-2023 10:00"⟩]] := by
      decide
    unfold yillikOrtalama oranOrtalamasi
    rw [hg]
    norm_num [donemOrani, toplamYakit, kmMin, kmMax]
  unfold yakitIstatistikleri
  rw [ha, hgen, hay, hyil]

theorem kmMin_harita (g : FuelEntry → FuelEntry) (hkm : ∀ e, (g e).km = e.km)
    (rows : List FuelEntry) : kmMin (rows.map g) = kmMin rows := by
  cases rows with
  | nil => rfl
  | cons e es =>
    unfold kmMin
    rw [List.map_cons]
    show List.foldl (fun m x => min m x.km) (g e).km (es.map g)
      = List.foldl (fun m x => min m x.km) e.km es
    rw [List.foldl_map, hkm e]
    congr 1
    funext m x
    rw [hkm x]

theorem kmMax_harita (g : FuelEntry → FuelEntry) (hkm : ∀ e, (g e).km = e.km)
    (rows : List FuelEntry) : kmMax (rows.map g) = kmMax rows := by
  cases rows with
  | nil => rfl
  | cons e es =>
    unfold kmMax
    rw [List.map_cons]
    show List.foldl (fun m x => max m x.km) (g e).km (es.map g)
      = List.foldl (fun m x => max m x.km) e.km es
    rw [List.foldl_map, hkm e]
    congr 1
    funext m x
    rw [hkm x]

theorem toplamYakit_harita (g : FuelEntry → FuelEntry)
    (hm : ∀ e, (g e).yakitMiktari = e.yakitMiktari) (rows : List FuelEntry) :
    toplamYakit (rows.map g) = toplamYakit rows := by
  unfold toplamYakit
  rw [List.map_map]
  exact congrArg List.sum (List.map_congr_left (fun e _ => hm e))

/-- C4 amended: a malformed timestamp does not abort the statistics
computation and partial results ARE shown — the overall figure is a pure
function of odometer readings and volumes (any rewrite of the rows that
keeps km and volume, e.g. corrupting every timestamp, leaves it
unchanged), and all rows whose timestamps fail to parse are collected
into one shared NULL-keyed partition of the monthly grouping, treated
like any other period. -/
theorem bozuk_tarih_davranisi (rows : List FuelEntry) (g : FuelEntry → FuelEntry)
    (hg : ∀ e, (g e).km = e.km ∧ (g e).yakitMiktari = e.yakitMiktari) :
    (genelOrtalama (rows.map g) = genelOrtalama rows)
    ∧ ((∃ e ∈ rows, strftimeMY e.tarih = none) →
        rows.filter (fun e => decide (strftimeMY e.tarih = none))
          ∈ grupla (fun e => strftimeMY e.tarih) rows) := by
  constructor
  · unfold genelOrtalama
    rw [isEmpty_harita, kmMin_harita g (fun e => (hg e).1) rows,
      kmMax_harita g (fun e => (hg e).1) rows,
      toplamYakit_harita g (fun e => (hg e).2) rows]
  · intro h
    unfold grupla
    refine List.mem_map.mpr ⟨none, ?_, rfl⟩
    rw [List.mem_dedup]
    obtain ⟨e, he, hne⟩ := h
    exact List.mem_map.mpr ⟨e, he, hne⟩

/-- C4 amended witness: blanking every timestamp of a two-entry log leaves
the overall figure unchanged, and the malformed-timestamp row of a mixed
log sits in a monthly partition of its own alongside the parsed month. -/
theorem bozuk_tarih_davranisi_ornek :
    (genelOrtalama
        (([⟨1, 1000, 30, "", "2023-01-05 10:00"⟩,
           ⟨1, 1400, 32, "", "2023-02-20 10:00"⟩] : List FuelEntry).map
          (fun e => { e with tarih := "" }))
      = genelOrtalama
        [⟨1, 1000, 30, "", "2023-01-05 10:00"⟩, ⟨1, 1400, 32, "", "2023-02-20 10:00"⟩])
    ∧ (([⟨1, 1000, 30, "", "15-01-2023 14:30"⟩,
         ⟨1, 1400, 32, "", "2023-02-20 10:00"⟩] : List FuelEntry).filter
          (fun e => decide (strftimeMY e.tarih = none))
        ∈ grupla (fun e => strftimeMY e.tarih)
          [⟨1, 1000, 30, "", "15-01-2023 14:30"⟩, ⟨1, 1400, 32, "", "2023-02-20 10:00"⟩]) :=
  ⟨(bozuk_tarih_davranisi
      [⟨1, 1000, 30, "", "2023-01-05 10:00"⟩, ⟨1, 1400, 32, "", "2023-02-20 10:00"⟩]
      (fun e => { e with tarih := "" }) (fun e => ⟨rfl, rfl⟩)).1,
   (bozuk_tarih_davranisi
      [⟨1, 1000, 30, "", "15-01-2023 14:30"⟩, ⟨1, 1400, 32, "", "2023-02-20 10:00"⟩]
      (fun e => { e with tarih := "" }) (fun e => ⟨rfl, rfl⟩)).2 (by decide)⟩
